import Mathlib

/-!
Verification of the epoch-level training loop
(src/pytorch_lightning/loops/training_loop.py).

The Python code is shallowly embedded: the loop state and the trainer
attributes read by the loop become explicit records, the side-effecting
`done` property becomes a function returning both its boolean result and
the updated counter, hook dispatch becomes a list of emitted events, and
fallible index accesses become Option-valued functions (none = the Python
exception).  Classes of this repository that are not part of the analysed
file (the base Loop driver, the Trainer, the Result class) are modelled
from the specification where a claim depends on them; each such definition
carries a doc comment starting with the words Modelled from the spec.

The file is laid out with all definitions first and all theorems after.
-/

/-! ## Dictionaries of logged values

A Python dict mapping string keys to logged values.  Values are modelled
as integers; insertion overwrites an existing key in place and appends a
new key at the end, exactly as Python dict assignment does. -/

abbrev PDict := List (String × Int)

def lossKey : String := "loss"

/-- Python dict assignment d[k] = v: replace the binding if the key is
present, otherwise append it. -/
def dinsert (k : String) (v : Int) (d : PDict) : PDict :=
  if d.any (fun p => p.1 == k) then d.map (fun p => if p.1 == k then (k, v) else p)
  else d ++ [(k, v)]

def dkeys (d : PDict) : List String := d.map (fun p => p.1)

/-! ## The Result object (pytorch_lightning.core.step_result.Result)

Only the attributes read by training_loop.py are modelled: `minimize`
(the scalar minimization target), `extra` (the mapping of extra logged
values) and the `should_reduce_on_epoch_end` flag consulted by
track_epoch_end_reduce_metrics. -/

structure Result where
  minimize : Int
  extra : PDict
  should_reduce_on_epoch_end : Bool
deriving DecidableEq

/-! ## OutputReducer (_prepare_outputs, lines 262-312)

Python returns heterogeneously nested lists: a list of length one is
replaced by its sole element.  `Coll α` is the type of the value of such
a collapse step: either the collapsed single element or the list itself. -/

inductive Coll (α : Type) where
  | one : α → Coll α
  | many : List α → Coll α
deriving DecidableEq

/-- The collapse applied by _prepare_outputs after each level: a list of
length exactly one becomes its single element (lines 300-301, 310-311). -/
def collapse {α : Type} : List α → Coll α
  | [x] => Coll.one x
  | l => Coll.many l

/-- Lines 294-297: each tbptt Result becomes `out = tbptt_output.extra`
followed by `out[loss-key] = tbptt_output.minimize`. -/
def processTbptt (tbptt_output : Result) : PDict :=
  dinsert lossKey tbptt_output.minimize tbptt_output.extra

/-- Lines 291-302: the inner loop over the tbptt outputs of one batch,
with the single-step collapse at the end. -/
def processBatch (batch_outputs : List Result) : Coll PDict :=
  collapse (batch_outputs.map processTbptt)

/-- Lines 280-307 with batch_mode = False: the outer loop over optimizer
outputs, skipping any optimizer whose output list is empty (line 283). -/
def prepOptsEpoch : List (List (List Result)) → List (List (Coll PDict))
  | [] => []
  | opt :: rest =>
    if opt.length = 0 then prepOptsEpoch rest
    else (opt.map processBatch) :: prepOptsEpoch rest

/-- The function _prepare_outputs with batch_mode = False (epoch mode):
the outer loop then the single-optimizer collapse of lines 310-311. -/
def prepare_outputs_epoch (outputs : List (List (List Result))) : Coll (List (Coll PDict)) :=
  collapse (prepOptsEpoch outputs)

/-- Lines 280-307 with batch_mode = True: each optimizer entry is the
tbptt list itself; the wrap `opt_outputs = [opt_outputs]` (line 289)
followed by `processed_batch_outputs[0]` (line 306) makes the middle
dimension disappear. -/
def prepOptsBatch : List (List Result) → List (Coll PDict)
  | [] => []
  | opt :: rest =>
    if opt.length = 0 then prepOptsBatch rest
    else processBatch opt :: prepOptsBatch rest

/-- The function _prepare_outputs with batch_mode = True (batch mode). -/
def prepare_outputs_batch (outputs : List (List Result)) : Coll (Coll PDict) :=
  collapse (prepOptsBatch outputs)

/-! Concrete Results used in the claim instances. -/

def rExId : String := "id"

def rExA : Result := { minimize := 1, extra := [(rExId, 10)], should_reduce_on_epoch_end := false }

def rExB : Result := { minimize := 3, extra := [(rExId, 30)], should_reduce_on_epoch_end := false }

/-! ## Trainer attributes read by the loop

The Trainer class itself is an external collaborator (spec section 6); the
record below holds exactly the attributes training_loop.py reads.
val_check_batch can be the float +infinity in Python, hence the dedicated
two-constructor type.  acc_reached models the boolean value of the call
self._accumulated_batches_reached() on line 117 (the method is declared
outside the analysed file; spec section 6 gives its contract
BatchLoop._accumulatedBatchesReached() -> bool). -/

inductive VCB where
  | fin : Nat → VCB
  | inf
deriving DecidableEq

structure TrainerCfg where
  max_steps : Option Int
  global_step : Int
  acc_reached : Bool
  should_stop : Bool
  num_training_batches : Nat
  val_check_batch : VCB
  current_epoch : Nat
  check_val_every_n_epoch : Nat
  enable_validation : Bool
deriving DecidableEq

/-! ## Validation predicate (should_check_val_fx, lines 332-344) -/

/-- Line 334: (batch_idx + 1) % self.trainer.val_check_batch == 0.  For a
finite interval this is integer modulus; when val_check_batch is the
float +infinity, Python evaluates x % inf = x for the positive
x = batch_idx + 1, which is never 0. -/
def is_val_check_batch (t : TrainerCfg) (batch_idx : Nat) : Bool :=
  match t.val_check_batch with
  | VCB.fin k => (batch_idx + 1) % k == 0
  | VCB.inf => false

/-- should_check_val_fx, lines 332-344, translated line by line. -/
def should_check_val_fx (t : TrainerCfg) (batch_idx : Nat) (is_last_batch : Bool)
    (on_epoch : Bool) : Bool :=
  let ivcb := is_val_check_batch t batch_idx
  let is_val_check_epoch := (t.current_epoch + 1) % t.check_val_every_n_epoch == 0
  let can_check_val := t.enable_validation && is_val_check_epoch
  let is_last_batch_for_infinite_dataset :=
    is_last_batch && decide (t.val_check_batch = VCB.inf)
  let epoch_end_val_check := (batch_idx + 1) % t.num_training_batches == 0
  let should_check_val :=
    if on_epoch then
      (ivcb && epoch_end_val_check) || t.should_stop || is_last_batch_for_infinite_dataset
    else ivcb && !epoch_end_val_check
  should_check_val && can_check_val

/-- The formula of claim C2, written out from the wording of the claim
itself (isValCheckBatch, isValCheckEpoch, canCheckVal,
isLastForInfiniteDataset, epochEndValCheck and the two onEpoch
branches). -/
def claimShouldCheckVal (t : TrainerCfg) (batch_idx : Nat) (is_last_batch : Bool)
    (on_epoch : Bool) : Bool :=
  let isValCheckBatch :=
    match t.val_check_batch with
    | VCB.fin k => (batch_idx + 1) % k == 0
    | VCB.inf => false
  let isValCheckEpoch := (t.current_epoch + 1) % t.check_val_every_n_epoch == 0
  let canCheckVal := t.enable_validation && isValCheckEpoch
  let isLastForInfiniteDataset := is_last_batch && decide (t.val_check_batch = VCB.inf)
  let epochEndValCheck := (batch_idx + 1) % t.num_training_batches == 0
  (if on_epoch then
      (isValCheckBatch && epochEndValCheck) || t.should_stop || isLastForInfiniteDataset
    else isValCheckBatch && !epochEndValCheck) && canCheckVal

/-- The trainer configuration of the concrete instance in claim C2:
val_check_batch = 10, num_training_batches = 100, validation enabled,
epoch check passing, should_stop false. -/
def cfgC2 : TrainerCfg :=
  { max_steps := none, global_step := 0, acc_reached := false, should_stop := false,
    num_training_batches := 100, val_check_batch := VCB.fin 10, current_epoch := 0,
    check_val_every_n_epoch := 1, enable_validation := true }

/-! ## The done property (lines 112-131) and its counter side effect -/

/-- The per-epoch loop state mutated by advance and by the done property. -/
structure LoopState where
  total_batch_idx : Nat
  batch_idx : Nat
  is_last_batch : Bool
deriving DecidableEq

/-- Lines 115-118: the max-steps early exit, taken when max_steps is set,
max_steps <= global_step + 1 and the accumulation boundary is reached. -/
def maxStepsEarlyExit (t : TrainerCfg) : Bool :=
  match t.max_steps with
  | some m => decide (m ≤ t.global_step + 1) && t.acc_reached
  | none => false

/-- The method _num_training_batches_reached, lines 216-217. -/
def num_training_batches_reached (t : TrainerCfg) (batch_idx : Nat)
    (is_last_batch : Bool) : Bool :=
  batch_idx == t.num_training_batches || is_last_batch

/-- The done property, lines 112-131: returns the boolean result (the
Python fall-through return of None is falsy, modelled as false) together
with the value of total_batch_idx after the evaluation; the increment on
line 127 runs only after the two early returns of lines 115-125. -/
def done (t : TrainerCfg) (s : LoopState) : Bool × Nat :=
  if maxStepsEarlyExit t then (true, s.total_batch_idx)
  else if t.should_stop then (true, s.total_batch_idx)
  else (num_training_batches_reached t s.batch_idx s.is_last_batch, s.total_batch_idx + 1)

/-- A reachable configuration for the C1 counterexample: the externally
settable should_stop flag is true (spec section 5: should stop is checked
once per batch and can be set at any time). -/
def cfgC1 : TrainerCfg :=
  { max_steps := none, global_step := 0, acc_reached := false, should_stop := true,
    num_training_batches := 5, val_check_batch := VCB.fin 1, current_epoch := 0,
    check_val_every_n_epoch := 1, enable_validation := false }

def stC1 : LoopState := { total_batch_idx := 7, batch_idx := 2, is_last_batch := false }

/-- A configuration where neither early exit of done fires, for the C1
witness. -/
def cfgC1w : TrainerCfg :=
  { max_steps := none, global_step := 0, acc_reached := false, should_stop := false,
    num_training_batches := 5, val_check_batch := VCB.fin 1, current_epoch := 0,
    check_val_every_n_epoch := 1, enable_validation := false }

def stC1w : LoopState := { total_batch_idx := 7, batch_idx := 2, is_last_batch := false }

/-! ## The epoch driver (C4)

The base Loop class (pytorch_lightning.loops.base.Loop) driving
on_run_start / done / advance / on_advance_end is imported by the analysed
file but is not part of it. -/

/-- Modelled from the spec: the base Loop driver (pytorch_lightning.loops.base.Loop,
not under src/).  Spec section 4.1 gives the state machine NotStarted,
Running, Done: start resets batch index to 0 and the last-batch flag to
false (matching on_run_start, lines 50-51), then the loop repeatedly
checks isDone and, while it is false, advances one batch.  The dataloader
is modelled as the stream of its is-last flags: batch k (0-based, as the
batch indices are 0-based per spec sections 3 and 8) carries the flag
last k.  advance (lines 55-57) sets batch_idx to the pulled 0-based index
and is_last_batch to the pulled flag; consumed counts pulled batches.
Claim C4 assumes the batch loop never signals skip, no max-step bound and
should_stop never set, so advance has no further effect on termination.
Fuel bounds the recursion; the value is the number of consumed batches at
termination, none if the fuel runs out. -/
def runEpochGo (t : TrainerCfg) (last : Nat → Bool) :
    Nat → LoopState → Nat → Option Nat
  | 0, _, _ => none
  | fuel + 1, s, consumed =>
    let r := done t s
    if r.1 then some consumed
    else runEpochGo t last fuel
      { total_batch_idx := r.2, batch_idx := consumed, is_last_batch := last consumed }
      (consumed + 1)

/-- Modelled from the spec: one epoch run; the initial state comes from
on_run_start (batch_idx = 0, is_last_batch = false, lines 50-51). -/
def runEpochCount (t : TrainerCfg) (last : Nat → Bool) (fuel : Nat) : Option Nat :=
  runEpochGo t last fuel { total_batch_idx := 0, batch_idx := 0, is_last_batch := false } 0

/-- The C4 failing configuration: num_training_batches = 1, no max-step
bound, should_stop never set. -/
def cfgC4 : TrainerCfg :=
  { max_steps := none, global_step := 0, acc_reached := false, should_stop := false,
    num_training_batches := 1, val_check_batch := VCB.fin 1, current_epoch := 0,
    check_val_every_n_epoch := 1, enable_validation := false }

/-! ## EpochEndAggregator (track_epoch_end_reduce_metrics, lines 239-260)

The per-batch outputs handed to the tracker are, per optimizer, a Python
list whose elements are Result objects or other values (the isinstance
checks on lines 246 and 257 distinguish the two); StepOut models one such
element, with non-Result elements identified by an opaque tag. -/

inductive StepOut where
  | res : Result → StepOut
  | raw : Nat → StepOut
deriving DecidableEq

/-- isinstance(x, Result). -/
def isRes : StepOut → Bool
  | StepOut.res _ => true
  | StepOut.raw _ => false

/-- Line 246: isinstance(sample_output, Result) and
sample_output.should_reduce_on_epoch_end. -/
def autoReduce : StepOut → Bool
  | StepOut.res r => r.should_reduce_on_epoch_end
  | StepOut.raw _ => false

/-- What line 260 appends into an optimizer bucket: either the (possibly
unwrapped) single element or the whole per-batch list. -/
inductive TrackEntry where
  | single : StepOut → TrackEntry
  | seq : List StepOut → TrackEntry
deriving DecidableEq

/-- Lines 242-258 for one optimizer output: sample_output = opt_outputs[-1];
skip unless hook_overridden or the auto-reduce flag holds (lines 246-254);
unwrap a one-element list whose element is not a Result (lines 257-258).
none means nothing is appended for this optimizer.  hook_overridden is the
disjunction of the two is_overridden checks on lines 247-250. -/
def trackDecision (hook_overridden : Bool) (opt_outputs : List StepOut) : Option TrackEntry :=
  match opt_outputs with
  | [] => none
  | x :: xs =>
    if !(hook_overridden || autoReduce ((x :: xs).getLast (List.cons_ne_nil x xs))) then none
    else
      match xs with
      | [] => if isRes x then some (TrackEntry.seq [x]) else some (TrackEntry.single x)
      | _ :: _ => some (TrackEntry.seq (x :: xs))

/-- The list access and append of line 260, epoch_output[opt_idx].append(e):
none models the Python IndexError when opt_idx is out of range. -/
def appendAt (epoch_output : List (List TrackEntry)) (opt_idx : Nat) (e : TrackEntry) :
    Option (List (List TrackEntry)) :=
  if h : opt_idx < epoch_output.length then
    some (epoch_output.set opt_idx (epoch_output.get ⟨opt_idx, h⟩ ++ [e]))
  else none

/-- The enumerate loop of lines 242-260, carrying the running opt_idx. -/
def trackGo (hook_overridden : Bool) :
    List (List TrackEntry) → Nat → List (List StepOut) → Option (List (List TrackEntry))
  | eo, _, [] => some eo
  | eo, i, opt :: rest =>
    match trackDecision hook_overridden opt with
    | none => trackGo hook_overridden eo (i + 1) rest
    | some e =>
      match appendAt eo i e with
      | none => none
      | some eo2 => trackGo hook_overridden eo2 (i + 1) rest

/-- track_epoch_end_reduce_metrics, lines 239-260. -/
def track_epoch_end_reduce_metrics (hook_overridden : Bool)
    (epoch_output : List (List TrackEntry)) (batch_end_outputs : List (List StepOut)) :
    Option (List (List TrackEntry)) :=
  trackGo hook_overridden epoch_output 0 batch_end_outputs

/-! ## advance (lines 53-86) -/

/-- The observable hook and logging calls made by advance after the batch
loop returns: trainer.call_hook on_train_batch_end and on_batch_end
(lines 230-231) and logger_connector.log_train_step_metrics (line 84). -/
inductive Ev where
  | on_train_batch_end
  | on_batch_end
  | log_train_step_metrics
deriving DecidableEq

/-- The BatchOutput returned by BatchLoop.run (spec section 6): a signal
(minus 1 means skip the rest of the epoch) and
training_step_output_for_epoch_end, a per-optimizer list of per-tbptt
outputs. -/
structure BatchOutputM where
  signal : Int
  tso : List (List StepOut)
deriving DecidableEq

/-- What one advance call produces: whether _skip_remaining_steps was set
(line 68), the hook and logging events emitted, and the epoch_output
shell returned (line 86); none when advance returned early on the skip
signal, or when track_epoch_end_reduce_metrics raised IndexError. -/
structure AdvanceOut where
  skip_flag : Bool
  events : List Ev
  epoch_output : Option (List (List TrackEntry))
deriving DecidableEq

/-- advance, lines 53-86: on signal -1 set the skip flag and return at
once (lines 67-69), with no hook dispatch, no tracking and no logging;
otherwise build the one-bucket shell epoch_output = [[]] (line 72), run
the on_train_batch_end sequence (lines 220-237: filter empty optimizer
outputs, dispatch the two batch-end hooks, track for epoch end) and log
the train step metrics (line 84). -/
def advanceModel (hook_overridden : Bool) (bo : BatchOutputM) : AdvanceOut :=
  if bo.signal = -1 then { skip_flag := true, events := [], epoch_output := none }
  else
    let filtered := bo.tso.filter (fun o => !o.isEmpty)
    let tracked := track_epoch_end_reduce_metrics hook_overridden [[]] filtered
    { skip_flag := false,
      events := [Ev.on_train_batch_end, Ev.on_batch_end]
        ++ (match tracked with
            | some _ => [Ev.log_train_step_metrics]
            | none => []),
      epoch_output := tracked }

/-- A batch output with two optimizers, both with retained entries, for
the C10 witness. -/
def boC10 : BatchOutputM := { signal := 0, tso := [[StepOut.raw 1], [StepOut.raw 2]] }

/-! ## The epoch-end phase after a skip signal (C5) -/

def mapOpt {α β : Type} (f : α → Option β) : List α → Option (List β)
  | [] => some []
  | a :: l =>
    match f a, mapOpt f l with
    | some b, some bl => some (b :: bl)
    | _, _ => none

def stepOutRes : StepOut → Option Result
  | StepOut.res r => some r
  | StepOut.raw _ => none

/-- Reading a tracked entry back as the list of Result objects that the
reducer call inside on_run_end iterates (Python duck-typing: the function
_prepare_outputs in epoch mode walks the tracked structure as nested
lists of Results; defined exactly when the entry is a sequence of Result
objects, the shape produced when Result outputs are kept as sequences). -/
def entryResults : TrackEntry → Option (List Result)
  | TrackEntry.seq l => mapOpt stepOutRes l
  | TrackEntry.single _ => none

def shellResults (epoch_output : List (List TrackEntry)) :
    Option (List (List (List Result))) :=
  mapOpt (fun bucket => mapOpt entryResults bucket) epoch_output

/-- Modelled from the spec: the base Loop driver (not under src/) collects
the returned output of each successful advance into a list and stops
advancing as soon as the skip flag is set (spec sections 4.1 and 8: on
the skip signal the epoch terminates immediately after the batch loop
call).  The comment on line 72 of the analysed file says the same: let
the loop base concatenate all outputs into a list. -/
def runBatches (hook_overridden : Bool) : List BatchOutputM → List (List (List TrackEntry))
  | [] => []
  | bo :: rest =>
    let a := advanceModel hook_overridden bo
    if a.skip_flag then []
    else
      (match a.epoch_output with
       | some eo => [eo]
       | none => []) ++ runBatches hook_overridden rest

/-- The output-processing part of on_run_end, lines 134-143: outputs =
outputs[0] (none models the IndexError on an empty collection), then the
epoch-mode reducer call of line 143. -/
def on_run_end_processed (outputs : List (List (List TrackEntry))) :
    Option (Coll (List (Coll PDict))) :=
  match outputs with
  | [] => none
  | o :: _ =>
    match shellResults o with
    | some outs => some (prepare_outputs_epoch outs)
    | none => none

def rC5 (i : Int) : Result := { minimize := i, extra := [], should_reduce_on_epoch_end := false }

def boC5 (i : Int) : BatchOutputM := { signal := 0, tso := [[StepOut.res (rC5 i)]] }

/-- Batch 3 of the C5 scenario: BatchLoop signals -1. -/
def boC5skip : BatchOutputM := { signal := -1, tso := [[StepOut.res (rC5 3)]] }

/-- The 5-batch scenario of claim C5 (single optimizer, one tbptt step per
batch, skip signal on batch 3, hook overridden so outputs are retained). -/
def scenC5 : List BatchOutputM := [boC5 1, boC5 2, boC5skip, boC5 4, boC5 5]

/-! ## The on_train_epoch_end hook dispatch (C6, lines 174-214) -/

/-- The runtime facts the dispatch branches on: hasattr(trainer, hook_name)
on line 189, is_overridden(hook_name, model_ref) on line 195,
is_param_in_hook_signature(hook_fx, outputs-name) on line 197 and
hasattr(trainer.accelerator, hook_name) on line 209.  Trainer, model and
accelerator are external collaborators (spec sections 4.2 and 6 make the
trainer and accelerator methods conditional: the same-named method if
present, the optional accelerator fallback). -/
structure HookCfg where
  trainer_has_hook : Bool
  model_overrides : Bool
  accepts_outputs : Bool
  accelerator_has_hook : Bool
deriving DecidableEq

inductive HookEv where
  | trainer_hook
  | deprecation_warning
  | model_hook_with_outputs
  | model_hook_no_args
  | accelerator_hook
deriving DecidableEq

/-- The method _on_train_epoch_end_hook, lines 174-214: the trainer hook
when the trainer has one (lines 189-191, called with the processed
outputs); then the model override when is_overridden holds (lines
195-205), with the deprecation warning and the outputs argument when the
signature accepts outputs, and with no arguments otherwise; else the
accelerator hook when the accelerator has one (lines 209-211). -/
def on_train_epoch_end_hook (c : HookCfg) : List HookEv :=
  (if c.trainer_has_hook then [HookEv.trainer_hook] else [])
    ++ (if c.model_overrides then
          (if c.accepts_outputs then
            [HookEv.deprecation_warning, HookEv.model_hook_with_outputs]
          else [HookEv.model_hook_no_args])
        else if c.accelerator_has_hook then [HookEv.accelerator_hook] else [])

/-! ## on_run_end and the training_epoch_end return check (C8, lines 134-168) -/

/-- The epoch-end steps of on_run_end visible after the reducer call:
logger_connector.on_train_epoch_end (line 140), the training_epoch_end
call on the model (line 154), cache_logged_metrics (line 163), the
_on_train_epoch_end_hook dispatch (line 166) and the on_epoch_end hook
(line 167). -/
inductive EndEv where
  | logger_on_train_epoch_end
  | training_epoch_end_call
  | cache_logged_metrics
  | train_epoch_end_hook_dispatch
  | on_epoch_end_hook
deriving DecidableEq

def trainingEpochEndMsg : String :=
  "training_epoch_end expects a return of None. HINT: remove the return statement in training_epoch_end"

/-- The control flow of on_run_end, lines 134-168, as a function of
whether the model overrides training_epoch_end (line 148) and of the
value that hook returns: some v models a non-None return, which raises
MisconfigurationException with the message of lines 157-160 (the events
emitted before the raise are not recorded in the error branch, since the
exception propagates to the caller); a None return continues through the
remaining epoch-end dispatch.  The ok value lists the performed steps in
order. -/
def on_run_end_flow (overridden : Bool) (hook_return : Option Int) :
    Except String (List EndEv) :=
  if overridden then
    if hook_return.isSome then Except.error trainingEpochEndMsg
    else
      Except.ok [EndEv.logger_on_train_epoch_end, EndEv.training_epoch_end_call,
        EndEv.cache_logged_metrics, EndEv.train_epoch_end_hook_dispatch,
        EndEv.on_epoch_end_hook]
  else
    Except.ok [EndEv.logger_on_train_epoch_end, EndEv.train_epoch_end_hook_dispatch,
      EndEv.on_epoch_end_hook]

/-! ## Purity of the output reducer towards its inputs (C9) -/

/-- Modelled from the spec: the Result class
(pytorch_lightning/core/step_result.py) is not under src/, and whether
the statement out = tbptt_output.extra on line 295 aliases the mapping
stored in the Result is decided by that class.  Spec section 3 states a
StepResult is immutable once produced, so the extra read yields the
mapping as a value and the loss insertion of line 296 builds a new
mapping; under that model the input structure after a call of
_prepare_outputs is the input itself, every Result unchanged. -/
def prepare_outputs_inputs_after (outputs : List (List (List Result))) :
    List (List (List Result)) := outputs

def rC9 : Result := { minimize := 7, extra := [(rExId, 3)], should_reduce_on_epoch_end := false }

/-!
## Theorems

Helper lemmas first, then one theorem per claim (with its witness or
counterexample where required).
-/

theorem prepOptsEpoch_eq_filter_map (outs : List (List (List Result))) :
    prepOptsEpoch outs
      = (outs.filter (fun o => !o.isEmpty)).map (fun o => o.map processBatch) := by
  induction outs with
  | nil => rfl
  | cons opt rest ih =>
    cases opt with
    | nil => simpa [prepOptsEpoch] using ih
    | cons b bs => simpa [prepOptsEpoch] using ih

theorem prepOptsBatch_eq_filter_map (outs : List (List Result)) :
    prepOptsBatch outs
      = (outs.filter (fun o => !o.isEmpty)).map processBatch := by
  induction outs with
  | nil => rfl
  | cons opt rest ih =>
    cases opt with
    | nil => simpa [prepOptsBatch] using ih
    | cons b bs => simpa [prepOptsBatch] using ih

theorem trackGo_skip_all (hook_overridden : Bool) (outs : List (List StepOut)) :
    ∀ (eo : List (List TrackEntry)) (i : Nat),
      (∀ opt ∈ outs, trackDecision hook_overridden opt = none) →
      trackGo hook_overridden eo i outs = some eo := by
  induction outs with
  | nil => intro eo i _; rfl
  | cons opt rest ih =>
    intro eo i h
    have hopt : trackDecision hook_overridden opt = none := h opt (by simp)
    simp only [trackGo, hopt]
    exact ih eo (i + 1) (fun o ho => h o (by simp [ho]))

theorem trackGo_high_index (hook_overridden : Bool) (rest : List (List StepOut)) :
    ∀ (eo : List (List TrackEntry)) (i : Nat), eo.length = 1 → 1 ≤ i →
      trackGo hook_overridden eo i rest
        = if rest.any (fun o => (trackDecision hook_overridden o).isSome) then none
          else some eo := by
  induction rest with
  | nil => intro eo i h1 h2; simp [trackGo]
  | cons opt rest ih =>
    intro eo i h1 h2
    simp only [trackGo]
    cases hd : trackDecision hook_overridden opt with
    | none =>
      rw [ih eo (i + 1) h1 (by omega)]
      simp [hd]
    | some e =>
      have hnot : ¬ i < eo.length := by omega
      simp [appendAt, hnot, hd]

theorem track_shell_error_iff (hook_overridden : Bool) (outs : List (List StepOut)) :
    track_epoch_end_reduce_metrics hook_overridden [[]] outs = none ↔
      outs.tail.any (fun o => (trackDecision hook_overridden o).isSome) = true := by
  cases outs with
  | nil => simp [track_epoch_end_reduce_metrics, trackGo]
  | cons opt0 rest =>
    rw [track_epoch_end_reduce_metrics]
    simp only [trackGo]
    cases hd : trackDecision hook_overridden opt0 with
    | none =>
      rw [trackGo_high_index hook_overridden rest [[]] 1 rfl (by omega)]
      by_cases hr : rest.any (fun o => (trackDecision hook_overridden o).isSome) = true <;>
        simp [hr]
    | some e =>
      have h2 : appendAt [[]] 0 e = some [[e]] := rfl
      simp only [h2]
      rw [trackGo_high_index hook_overridden rest [[e]] 1 rfl (by omega)]
      by_cases hr : rest.any (fun o => (trackDecision hook_overridden o).isSome) = true <;>
        simp [hr]

/-- C1 counterexample: with should_stop set, evaluating done returns true
and leaves total_batch_idx unchanged, refuting the claim that every
evaluation of done increments total_batch_idx by exactly one regardless
of the outcome. -/
theorem c1_counterexample :
    (done cfgC1 stC1).1 = true ∧ (done cfgC1 stC1).2 = stC1.total_batch_idx ∧
    (done cfgC1 stC1).2 ≠ stC1.total_batch_idx + 1 := by
  refine ⟨rfl, rfl, ?_⟩
  decide

/-- C1 amended: evaluating done increments total_batch_idx by exactly one
whenever neither the max-steps early exit nor the should_stop early exit
fires (regardless of the boolean outcome in that case), and leaves it
unchanged when either early exit fires. -/
theorem c1_total_batch_idx_conditional_increment (t : TrainerCfg) (s : LoopState) :
    (maxStepsEarlyExit t = false → t.should_stop = false →
        (done t s).2 = s.total_batch_idx + 1) ∧
    ((maxStepsEarlyExit t = true ∨ t.should_stop = true) →
        (done t s).2 = s.total_batch_idx) := by
  constructor
  · intro h1 h2
    simp [done, h1, h2]
  · intro h
    rcases h with h | h <;> simp [done, h]

/-- C1 witness: the amended theorem applied at a concrete state where no
early exit fires. -/
theorem c1_witness : (done cfgC1w stC1w).2 = stC1w.total_batch_idx + 1 :=
  (c1_total_batch_idx_conditional_increment cfgC1w stC1w).1 (by decide) (by decide)

/-- C2: should_check_val_fx returns exactly the claimed boolean formula
for every configuration, batch index, last-batch flag and on_epoch flag,
and in particular returns true for val_check_batch = 10,
num_training_batches = 100, batch_idx = 9, on_epoch = false. -/
theorem c2_should_check_val_formula :
    (∀ (t : TrainerCfg) (batch_idx : Nat) (is_last_batch : Bool) (on_epoch : Bool),
        should_check_val_fx t batch_idx is_last_batch on_epoch
          = claimShouldCheckVal t batch_idx is_last_batch on_epoch) ∧
    should_check_val_fx cfgC2 9 false false = true :=
  ⟨fun _ _ _ _ => rfl, by decide⟩

/-- C3: the output reducer performs the four-stage collapse: (a) optimizer
entries with an empty middle sequence are dropped, order preserved (the
surviving entries are exactly the filter of the input), followed by the
final collapse; (b) in batch mode the middle dimension is removed (each
surviving optimizer entry is directly the collapsed tbptt sequence); (c)
a tbptt sequence of exactly one element collapses to that element,
converted to its extra mapping plus the loss key; (d) a single surviving
optimizer entry collapses the outer dimension; and in the concrete
3-optimizer instance with optimizer 2 empty the result has exactly the
two surviving entries in order. -/
theorem c3_prepare_outputs_four_stage_collapse :
    (∀ outs : List (List (List Result)),
        prepOptsEpoch outs
          = (outs.filter (fun o => !o.isEmpty)).map (fun o => o.map processBatch)) ∧
    (∀ outs : List (List (List Result)),
        prepare_outputs_epoch outs = collapse (prepOptsEpoch outs)) ∧
    (∀ outs : List (List Result),
        prepare_outputs_batch outs
          = collapse ((outs.filter (fun o => !o.isEmpty)).map processBatch)) ∧
    (∀ r : Result, processBatch [r] = Coll.one (dinsert lossKey r.minimize r.extra)) ∧
    (∀ (outs : List (List (List Result))) (o : List (List Result)),
        outs.filter (fun o => !o.isEmpty) = [o] →
        prepare_outputs_epoch outs = Coll.one (o.map processBatch)) ∧
    (prepare_outputs_epoch [[[rExA]], [], [[rExB]]]
      = Coll.many [[Coll.one [(rExId, 10), (lossKey, 1)]],
                   [Coll.one [(rExId, 30), (lossKey, 3)]]]) := by
  refine ⟨prepOptsEpoch_eq_filter_map, fun outs => rfl, ?_, fun r => rfl, ?_, rfl⟩
  · intro outs
    rw [prepare_outputs_batch, prepOptsBatch_eq_filter_map]
  · intro outs o h
    rw [prepare_outputs_epoch, prepOptsEpoch_eq_filter_map, h]
    rfl

/-- C3 witness: the single-survivor collapse applied at a concrete input. -/
theorem c3_witness :
    prepare_outputs_epoch [[], [[rExA], [rExB]]]
      = Coll.one [Coll.one [(rExId, 10), (lossKey, 1)],
                  Coll.one [(rExId, 30), (lossKey, 3)]] :=
  c3_prepare_outputs_four_stage_collapse.2.2.2.2.1
    [[], [[rExA], [rExB]]] [[rExA], [rExB]] (by decide) |>.trans (by decide)

/-- C4 evaluation at the failing input: with num_training_batches = 1 and
a dataloader that never reports last-batch, the epoch consumes 2 batches
before done holds, and done is false at the state reached after exactly 1
consumed batch (batch_idx = 0), where the claim says the loop terminates. -/
theorem c4_eval_off_by_one :
    runEpochCount cfgC4 (fun _ => false) 10 = some 2 ∧
    (done cfgC4 { total_batch_idx := 1, batch_idx := 0, is_last_batch := false }).1 = false ∧
    (done cfgC4 { total_batch_idx := 2, batch_idx := 1, is_last_batch := false }).1 = true := by
  refine ⟨?_, rfl, rfl⟩
  decide

/-- C5 evaluation: on the skip signal advance sets the skip flag and emits
no batch-end hook, tracking or logging event (first conjunct, lines
67-69); but in the 5-batch scenario the epoch-end phase processes only
the retained output of batch 1 (loss 1) - the retained output of batch 2
is absent, because every advance builds a fresh one-bucket shell (line
72) and on_run_end keeps only outputs[0] (line 137) - whereas the claim
expects the outputs of both batches 1 and 2, which would yield a
two-entry collapsed sequence. -/
theorem c5_eval_skip_and_epoch_end :
    advanceModel true boC5skip = { skip_flag := true, events := [], epoch_output := none } ∧
    on_run_end_processed (runBatches true scenC5)
      = some (Coll.one [Coll.one [(lossKey, 1)]]) :=
  ⟨rfl, by decide⟩

/-- C6 counterexample: for the configuration in which the trainer does not
define the hook (and the model does not override it and the accelerator
does not define it), no trainer hook call happens at all, refuting the
claim that the same-named method of the trainer is called first for every
configuration. -/
theorem c6_counterexample :
    HookEv.trainer_hook ∉ on_train_epoch_end_hook
      { trainer_has_hook := false, model_overrides := false, accepts_outputs := false,
        accelerator_has_hook := false } := by
  decide

/-- C6 amended: the same-named method of the trainer is called, first,
exactly when the trainer defines it; the model override runs with the
outputs and a deprecation warning exactly when the model overrides the
hook and its signature accepts outputs, and with no arguments exactly
when it overrides without accepting outputs; and the accelerator method
runs exactly when the model does not override the hook and the
accelerator defines the method. -/
theorem c6_hook_dispatch_amended (c : HookCfg) :
    ((HookEv.trainer_hook ∈ on_train_epoch_end_hook c) ↔ c.trainer_has_hook = true) ∧
    (c.trainer_has_hook = true →
        (on_train_epoch_end_hook c).head? = some HookEv.trainer_hook) ∧
    ((HookEv.model_hook_with_outputs ∈ on_train_epoch_end_hook c) ↔
        (c.model_overrides = true ∧ c.accepts_outputs = true)) ∧
    ((HookEv.deprecation_warning ∈ on_train_epoch_end_hook c) ↔
        (c.model_overrides = true ∧ c.accepts_outputs = true)) ∧
    ((HookEv.model_hook_no_args ∈ on_train_epoch_end_hook c) ↔
        (c.model_overrides = true ∧ c.accepts_outputs = false)) ∧
    ((HookEv.accelerator_hook ∈ on_train_epoch_end_hook c) ↔
        (c.model_overrides = false ∧ c.accelerator_has_hook = true)) := by
  rcases c with ⟨a, b, d, e⟩
  cases a <;> cases b <;> cases d <;> cases e <;> decide

/-- C6 witness: the amended dispatch law applied at a configuration where
every collaborator defines its hook and the model accepts outputs. -/
theorem c6_witness :
    (on_train_epoch_end_hook
        { trainer_has_hook := true, model_overrides := true, accepts_outputs := true,
          accelerator_has_hook := true }).head? = some HookEv.trainer_hook :=
  (c6_hook_dispatch_amended
      { trainer_has_hook := true, model_overrides := true, accepts_outputs := true,
        accelerator_has_hook := true }).2.1 rfl

/-- C7: a per-optimizer batch output is retained for epoch-end reduction
if and only if the sample output (the last element, line 243) is a Result
flagged should_reduce_on_epoch_end or the model overrides
training_epoch_end or on_train_epoch_end (lines 246-254); a one-element
sequence whose element is not a Result is unwrapped before appending
(lines 257-258), otherwise the whole sequence is appended; and when no
optimizer output is retained the epoch output is left unchanged. -/
theorem c7_epoch_end_retention (hook_overridden : Bool) (x : StepOut) (xs : List StepOut) :
    ((trackDecision hook_overridden (x :: xs)).isSome
        = (hook_overridden || autoReduce ((x :: xs).getLast (List.cons_ne_nil x xs)))) ∧
    (xs = [] → isRes x = false → (hook_overridden || autoReduce x) = true →
        trackDecision hook_overridden (x :: xs) = some (TrackEntry.single x)) ∧
    ((hook_overridden || autoReduce ((x :: xs).getLast (List.cons_ne_nil x xs))) = true →
        (xs ≠ [] ∨ isRes x = true) →
        trackDecision hook_overridden (x :: xs) = some (TrackEntry.seq (x :: xs))) ∧
    ((hook_overridden || autoReduce ((x :: xs).getLast (List.cons_ne_nil x xs))) = false →
        trackDecision hook_overridden (x :: xs) = none) ∧
    (∀ (eo : List (List TrackEntry)) (outs : List (List StepOut)),
        (∀ opt ∈ outs, trackDecision hook_overridden opt = none) →
        track_epoch_end_reduce_metrics hook_overridden eo outs = some eo) := by
  refine ⟨?_, ?_, ?_, ?_, fun eo outs h => trackGo_skip_all hook_overridden outs eo 0 h⟩
  · cases hcond : (hook_overridden || autoReduce ((x :: xs).getLast (List.cons_ne_nil x xs)))
    · simp [trackDecision, hcond]
    · cases xs with
      | nil =>
        cases hx : isRes x <;> simp [trackDecision, hcond, hx] <;>
          (intro hf; simpa [hf] using hcond)
      | cons y ys =>
        simp [trackDecision, hcond]
        intro hf
        simpa [hf] using hcond
  · intro h1 h2 h3
    subst h1
    simp [trackDecision, h3, h2]
  · intro h1 h2
    cases xs with
    | nil =>
      rcases h2 with h2 | h2
      · exact absurd rfl h2
      · simp [trackDecision, h1, h2]
        intro hf
        simpa [hf] using h1
    | cons y ys =>
      simp [trackDecision, h1]
      intro hf
      simpa [hf] using h1
  · intro h1
    simp [trackDecision, h1]

/-- C7 witness: with the hook overridden, a one-element non-Result output
is retained and unwrapped. -/
theorem c7_witness :
    trackDecision true [StepOut.raw 5] = some (TrackEntry.single (StepOut.raw 5)) :=
  (c7_epoch_end_retention true (StepOut.raw 5) []).2.1 rfl rfl rfl

/-- C8: when the model overrides training_epoch_end, a non-None return
value makes on_run_end raise MisconfigurationException immediately and
fatally to the caller, for every returned value; a None return continues
normally through the remaining epoch-end hook dispatch. -/
theorem c8_training_epoch_end_return_check :
    (∀ v : Int, on_run_end_flow true (some v) = Except.error trainingEpochEndMsg) ∧
    on_run_end_flow true none
      = Except.ok [EndEv.logger_on_train_epoch_end, EndEv.training_epoch_end_call,
          EndEv.cache_logged_metrics, EndEv.train_epoch_end_hook_dispatch,
          EndEv.on_epoch_end_hook] :=
  ⟨fun _ => rfl, rfl⟩

/-- C9: the output reducer leaves every input StepResult unchanged: the
input structure after the call equals the input, and at the concrete
input rC9 the loss key appears in the produced mapping while the extra
mapping of rC9 itself still holds exactly its original key. -/
theorem c9_prepare_outputs_inputs_unchanged :
    (∀ outputs : List (List (List Result)),
        prepare_outputs_inputs_after outputs = outputs) ∧
    prepare_outputs_inputs_after [[[rC9]]] = [[[rC9]]] ∧
    prepare_outputs_epoch [[[rC9]]] = Coll.one [Coll.one [(rExId, 3), (lossKey, 7)]] ∧
    dkeys rC9.extra = [rExId] :=
  ⟨fun _ => rfl, rfl, by decide, rfl⟩

/-- C10: advance hands track_epoch_end_reduce_metrics the shell [[]] with
exactly one optimizer bucket, and on that shell the tracker raises the
out-of-range IndexError exactly when some retained optimizer output sits
at an index greater than zero. -/
theorem c10_epoch_output_shell_bounds :
    (∀ (hook_overridden : Bool) (bo : BatchOutputM), bo.signal ≠ -1 →
        (advanceModel hook_overridden bo).epoch_output
          = track_epoch_end_reduce_metrics hook_overridden [[]]
              (bo.tso.filter (fun o => !o.isEmpty))) ∧
    (∀ (hook_overridden : Bool) (outs : List (List StepOut)),
        track_epoch_end_reduce_metrics hook_overridden [[]] outs = none ↔
          outs.tail.any (fun o => (trackDecision hook_overridden o).isSome) = true) := by
  constructor
  · intro hook bo h
    simp [advanceModel, h]
  · exact track_shell_error_iff

/-- C10 witness: at a two-optimizer batch the shell equation holds and the
tracked epoch output is the IndexError value. -/
theorem c10_witness :
    (advanceModel true boC10).epoch_output
      = track_epoch_end_reduce_metrics true [[]] (boC10.tso.filter (fun o => !o.isEmpty)) ∧
    track_epoch_end_reduce_metrics true [[]] (boC10.tso.filter (fun o => !o.isEmpty)) = none :=
  ⟨c10_epoch_output_shell_bounds.1 true boC10 (by decide), by decide⟩
